import Mathlib

/-!
Shallow embedding of the decision/risk/position core of the kucoin trading bot
(modules/risk_management/risk_manager.py, modules/strategy/basic_strategy.py,
modules/execution/order_manager.py, modules/execution/position_manager.py,
modules/trading/trading_engine.py).

Python floats and Decimals are modelled as exact rationals (ℚ); mutable
objects become explicit state passing; methods that can return None return
Option values.  The external exchange adapter (KucoinClient order calls) is
modelled as an `Option String` parameter: `some orderId` means the adapter
reported a filled order, `none` means it reported failure.  Timestamps and
logging are omitted: they carry no state that the verified properties
mention.
-/

namespace Kucoin

abbrev Symbol := String

/-- Per-symbol risk record stored in `RiskManager.open_positions`
(risk_manager.py, update_position, buy branch). -/
structure RiskPos where
  size : ℚ
  entry_price : ℚ
  stop_loss : ℚ
  take_profit : ℚ
deriving DecidableEq

/-- State of `RiskManager` (risk_manager.py, __init__): the five configured
limits plus the mutable daily counters and the per-symbol record map.
`daily_trades` starts at 0 and is only incremented or reset to 0, so ℕ;
`max_trades_per_day` is a plain Python int, so ℤ. -/
structure RiskManager where
  max_position_size : ℚ
  max_daily_loss : ℚ
  max_trades_per_day : ℤ
  stop_loss_pct : ℚ
  take_profit_pct : ℚ
  daily_loss : ℚ
  daily_trades : ℕ
  open_positions : Symbol → Option RiskPos

/-- Result dictionary of `check_trade_allowed`: the `allowed` flag plus the
keys that are present only on some branches. -/
structure TradeCheck where
  allowed : Bool
  reason : Option String
  stop_loss : Option ℚ
  take_profit : Option ℚ
deriving DecidableEq

/-- Embeds `RiskManager.check_trade_allowed` (risk_manager.py lines 52-86).  The
method reads state but never assigns; the embedding returns the result
together with the (unchanged) state, mirroring each `return` statement.
`symbol` and `side` are accepted and ignored exactly as in the source. -/
def check_trade_allowed (rm : RiskManager) (_symbol _side : String)
    (size current_price : ℚ) : TradeCheck × RiskManager :=
  if (rm.daily_trades : ℤ) ≥ rm.max_trades_per_day then
    (⟨false, some "Maximum daily trades reached", none, none⟩, rm)
  else if rm.daily_loss ≥ rm.max_daily_loss then
    (⟨false, some "Maximum daily loss reached", none, none⟩, rm)
  else if size * current_price > rm.max_position_size then
    (⟨false, some "Position size exceeds maximum allowed", none, none⟩, rm)
  else
    (⟨true, none,
      some (current_price * (1 - rm.stop_loss_pct / 100)),
      some (current_price * (1 + rm.take_profit_pct / 100))⟩, rm)

/-- Embeds `RiskManager.calculate_position_size` (risk_manager.py lines 34-50).
In Python the only way the try-body fails for numeric inputs is a
ZeroDivisionError, raised exactly when the first divisor
`current_price * (stop_loss_pct/100)` is zero (which also covers the
second divisor `current_price` being zero); the except branch then
returns 0.  Otherwise the min formula is returned as written. -/
def calculate_position_size (rm : RiskManager)
    (account_balance current_price risk_per_trade : ℚ) : ℚ :=
  if current_price * (rm.stop_loss_pct / 100) = 0 then 0
  else
    min (account_balance * risk_per_trade / (current_price * (rm.stop_loss_pct / 100)))
        (rm.max_position_size / current_price)

/-- Embeds `RiskManager.update_position` (risk_manager.py lines 88-108): on side
"buy" upsert the per-symbol record; on side "sell" delete it when present;
in every case increment `daily_trades`. -/
def update_position (rm : RiskManager) (symbol side : String)
    (size entry_price : ℚ) : RiskManager :=
  if side = "buy" then
    { rm with
      open_positions := fun s =>
        if s = symbol then
          some ⟨size, entry_price,
                entry_price * (1 - rm.stop_loss_pct / 100),
                entry_price * (1 + rm.take_profit_pct / 100)⟩
        else rm.open_positions s,
      daily_trades := rm.daily_trades + 1 }
  else if side = "sell" ∧ (rm.open_positions symbol).isSome then
    { rm with
      open_positions := fun s => if s = symbol then none else rm.open_positions s,
      daily_trades := rm.daily_trades + 1 }
  else
    { rm with daily_trades := rm.daily_trades + 1 }

/-- Embeds `RiskManager.update_daily_loss` (risk_manager.py lines 129-131). -/
def update_daily_loss (rm : RiskManager) (loss_amount : ℚ) : RiskManager :=
  { rm with daily_loss := rm.daily_loss + loss_amount }

/-- Embeds `RiskManager.reset_daily_metrics` (risk_manager.py lines 133-136). -/
def reset_daily_metrics (rm : RiskManager) : RiskManager :=
  { rm with daily_loss := 0, daily_trades := 0 }

/-! ## Strategy (basic_strategy.py) -/

/-- The sub-signal keys that `BasicStrategy.analyze` may put into the
analysis dict; each is a string `"BUY" | "SELL" | "HOLD"` when present. -/
structure AnalysisSignals where
  rsi_signal : Option String
  macd_signal : Option String
  bb_signal : Option String
  ema_signal : Option String
deriving DecidableEq

/-- The `signals` list collected by `generate_signal` (basic_strategy.py
lines 62-75): the present sub-signals in source order. -/
def availableSignals (a : AnalysisSignals) : List String :=
  ([a.rsi_signal, a.macd_signal, a.bb_signal, a.ema_signal]).filterMap id

/-- Embeds `BasicStrategy.generate_signal` (basic_strategy.py lines 56-93).
`none` models a falsy analysis argument.  `len(signals)/2` is Python true
division, hence exact division in ℚ. -/
def generate_signal (analysis : Option AnalysisSignals) : String :=
  match analysis with
  | none => "HOLD"
  | some a =>
    let signals := availableSignals a
    if signals = [] then "HOLD"
    else if (signals.count "BUY" : ℚ) > (signals.length : ℚ) / 2 then "BUY"
    else if (signals.count "SELL" : ℚ) > (signals.length : ℚ) / 2 then "SELL"
    else "HOLD"

/-! ## Execution (order_manager.py, position_manager.py) and engine
(trading_engine.py) -/

/-- ROUND_DOWN quantization of `Decimal.quantize` (order_manager.py
format_size): round toward zero to a multiple of the increment. -/
def quantize (increment size : ℚ) : ℚ :=
  if 0 ≤ size then (⌊size / increment⌋ : ℚ) * increment
  else (⌈size / increment⌉ : ℚ) * increment

/-- Embeds `OrderManager.format_size` (order_manager.py lines 14-23) at its default
increment 0.000001.  The Python version returns the quantized size as a
decimal string and returns None only when the Decimal conversion raises,
which cannot happen for a finite numeric input; the numeric value is
modelled directly. -/
def format_size (size : ℚ) : ℚ :=
  quantize (1 / 1000000) size

/-- Entry of `OrderManager.open_orders` (order_manager.py lines 63-69). -/
structure OpenOrder where
  symbol : String
  side : String
  size : ℚ
  price : ℚ
deriving DecidableEq

/-- Entry of `PositionManager.positions` (position_manager.py lines 27-31). -/
structure PMPos where
  size : ℚ
  entry_price : ℚ
  order_id : String
deriving DecidableEq

/-- A `trades_history` entry built by `TradingEngine.record_trade`
(trading_engine.py lines 286-294), without the wall-clock timestamp. -/
structure TradeRecord where
  kind : String
  symbol : String
  price : ℚ
  size : ℚ
  pnl : Option ℚ
deriving DecidableEq

/-- State of `TradingEngine.performance_metrics` (trading_engine.py lines 55-66). -/
structure PerformanceMetrics where
  total_trades : ℕ
  winning_trades : ℕ
  losing_trades : ℕ
  total_pnl : ℚ
  largest_win : ℚ
  largest_loss : ℚ
  average_win : ℚ
  average_loss : ℚ
  win_rate : ℚ
  risk_reward_ratio : ℚ
deriving DecidableEq

/-- State of `TradingEngine.daily_stats` (trading_engine.py lines 47-52). -/
structure DailyStats where
  trades : ℕ
  pnl : ℚ
  wins : ℕ
  losses : ℕ
deriving DecidableEq

/-- The mutable state shared by OrderManager, PositionManager and
TradingEngine: the objects hold each other by reference in Python, so one
combined state is threaded through their methods. -/
structure EngineState where
  rm : RiskManager
  positions : Symbol → Option PMPos
  open_orders : String → Option OpenOrder
  trades_history : List TradeRecord
  daily_stats : DailyStats
  performance_metrics : PerformanceMetrics

/-- Embeds `OrderManager.place_market_buy` (order_manager.py lines 25-78).
`adapter` is the outcome of `client.place_market_buy_order`: the order id
on success, `none` on failure.  Note the source updates the risk manager
with the quantized `float(formatted_size)`, not the raw size. -/
def place_market_buy (es : EngineState) (symbol : String)
    (size current_price : ℚ) (adapter : Option String) :
    Option String × EngineState :=
  let trade_check := (check_trade_allowed es.rm symbol "buy" size current_price).1
  if trade_check.allowed = false then (none, es)
  else
    let formatted_size := format_size size
    match adapter with
    | none => (none, es)
    | some orderId =>
      let rm1 := update_position es.rm symbol "buy" formatted_size current_price
      (some orderId,
       { es with
         rm := rm1,
         open_orders := fun oid =>
           if oid = orderId then some ⟨symbol, "buy", formatted_size, current_price⟩
           else es.open_orders oid })

/-- Embeds `OrderManager.place_market_sell` (order_manager.py lines 80-117): on a
filled order, read the entry price recorded by the risk manager (when present)
to account a daily loss for a negative pnl, then apply the sell-side
position update; on adapter failure nothing changes. -/
def place_market_sell (es : EngineState) (symbol : String)
    (size current_price : ℚ) (adapter : Option String) :
    Option String × EngineState :=
  let formatted_size := format_size size
  match adapter with
  | none => (none, es)
  | some orderId =>
    let rm1 :=
      match es.rm.open_positions symbol with
      | some rp =>
        if (current_price - rp.entry_price) * formatted_size < 0 then
          update_daily_loss es.rm |(current_price - rp.entry_price) * formatted_size|
        else es.rm
      | none => es.rm
    let rm2 := update_position rm1 symbol "sell" formatted_size current_price
    (some orderId, { es with rm := rm2 })

/-- Embeds `PositionManager.open_position` (position_manager.py lines 13-37): place
the buy order; when it fills, record the position (raw `size`, not the
quantized one) keyed by symbol.  There is no check for an existing
position. -/
def open_position (es : EngineState) (symbol : String)
    (size current_price : ℚ) (adapter : Option String) :
    Option String × EngineState :=
  let r := place_market_buy es symbol size current_price adapter
  match r.1 with
  | some orderId =>
    (some orderId,
     { r.2 with
       positions := fun s =>
         if s = symbol then some ⟨size, current_price, orderId⟩
         else r.2.positions s })
  | none => (none, r.2)

/-- Embeds `PositionManager.close_position` (position_manager.py lines 39-69):
requires a recorded position; places the sell order with the recorded size;
on fill computes the pnl (logged only) and deletes the position. -/
def close_position (es : EngineState) (symbol : String)
    (current_price : ℚ) (adapter : Option String) :
    Option String × EngineState :=
  match es.positions symbol with
  | none => (none, es)
  | some position =>
    let r := place_market_sell es symbol position.size current_price adapter
    match r.1 with
    | some orderId =>
      (some orderId,
       { r.2 with
         positions := fun s => if s = symbol then none else r.2.positions s })
    | none => (none, r.2)

/-- Embeds `TradingEngine.update_performance_metrics` (trading_engine.py lines
316-363) for a close trade carrying `pnl`; the dictionary reads/writes are
sequential, so each guard sees the values updated so far. -/
def update_performance_metrics (m : PerformanceMetrics) (pnl : ℚ) :
    PerformanceMetrics :=
  let m1 := { m with total_trades := m.total_trades + 1,
                     total_pnl := m.total_pnl + pnl }
  let m2 :=
    if pnl > 0 then
      { m1 with winning_trades := m1.winning_trades + 1,
                largest_win := max m1.largest_win pnl }
    else
      { m1 with losing_trades := m1.losing_trades + 1,
                largest_loss := min m1.largest_loss pnl }
  let m3 :=
    if m2.winning_trades > 0 then
      { m2 with average_win := m2.total_pnl / (m2.winning_trades : ℚ) }
    else m2
  let m4 :=
    if m3.losing_trades > 0 then
      { m3 with average_loss := |m3.total_pnl| / (m3.losing_trades : ℚ) }
    else m3
  let m5 :=
    if m4.total_trades > 0 then
      { m4 with win_rate := (m4.winning_trades : ℚ) / (m4.total_trades : ℚ) * 100 }
    else m4
  if m5.average_loss ≠ 0 then
    { m5 with risk_reward_ratio := |m5.average_win / m5.average_loss| }
  else m5

/-- Embeds `TradingEngine.record_trade` (trading_engine.py lines 279-314): append
the record, bump the daily trade count, and for a close trade with a pnl
update the daily stats and the performance metrics. -/
def record_trade (es : EngineState) (trade_type symbol : String)
    (price size : ℚ) (pnl : Option ℚ) : EngineState :=
  let trade : TradeRecord := ⟨trade_type, symbol, price, size, pnl⟩
  let hist := es.trades_history ++ [trade]
  let ds0 := { es.daily_stats with trades := es.daily_stats.trades + 1 }
  match pnl with
  | some p =>
    if trade_type = "close" then
      { es with
        trades_history := hist,
        daily_stats :=
          { ds0 with
            pnl := ds0.pnl + p,
            wins := if p > 0 then ds0.wins + 1 else ds0.wins,
            losses := if p > 0 then ds0.losses else ds0.losses + 1 },
        performance_metrics := update_performance_metrics es.performance_metrics p }
    else
      { es with trades_history := hist, daily_stats := ds0 }
  | none => { es with trades_history := hist, daily_stats := ds0 }

/-- Embeds `TradingEngine.process_signal` (trading_engine.py lines 215-277).
The SELL branch closes an existing position and records the close trade
with pnl = (price - entry) * recorded size on a filled order.  The BUY
branch is an unconditional dead path: its first statement is
`account_balance = await self.get_account_balance()` (line 225), but
TradingEngine defines no such method (it exists only on KucoinClient and
is never routed to the engine), so the call raises AttributeError before
any mutation; the except block at lines 274-277 catches it, logs, and the
method returns with every component state unchanged — no position is ever
opened through this path.  Notifications and `last_trade_time` bookkeeping
are omitted. -/
def process_signal (es : EngineState) (symbol signal : String)
    (current_price : ℚ) (adapter : Option String) : EngineState :=
  match es.positions symbol with
  | none => es
  | some position =>
    if signal = "SELL" then
      let r := close_position es symbol current_price adapter
      match r.1 with
      | some _ =>
        record_trade r.2 "close" symbol current_price position.size
          (some ((current_price - position.entry_price) * position.size))
      | none => r.2
    else es

/-- The RiskManager configuration used throughout tests/test_risk_manager.py
and tests/test_execution.py, in its freshly constructed state. -/
def testRiskManager : RiskManager :=
  ⟨1000, 100, 10, 2, 4, 0, 0, fun _ => none⟩

/-- A freshly constructed engine state over `testRiskManager`: no positions,
no orders, no history, zeroed statistics. -/
def testEngineState : EngineState :=
  ⟨testRiskManager, fun _ => none, fun _ => none, [],
   ⟨0, 0, 0, 0⟩, ⟨0, 0, 0, 0, 0, 0, 0, 0, 0, 0⟩⟩

/-- One recorded invocation of `RiskManager.update_position`. -/
structure RiskCall where
  symbol : String
  side : String
  size : ℚ
  entry_price : ℚ

/-- A sequence of `update_position` calls applied in order. -/
def apply_update_positions (rm : RiskManager) (calls : List RiskCall) :
    RiskManager :=
  calls.foldl (fun r c => update_position r c.symbol c.side c.size c.entry_price) rm

/-- The shape every per-symbol risk record receives from `update_position`
on a buy: stop/take computed from the entry price by the configured
percentages, and (for sane percentages) bracketing the entry price. -/
def riskRecordWellFormed (slp tpp : ℚ) (r : RiskPos) : Prop :=
  r.stop_loss = r.entry_price * (1 - slp / 100) ∧
  r.take_profit = r.entry_price * (1 + tpp / 100) ∧
  r.stop_loss < r.entry_price ∧ r.entry_price < r.take_profit

/-! ## Theorems -/

/-- C2: `check_trade_allowed` never allows a trade when the daily trade
count, the daily loss, or the notional exceeds its limit; the three checks
run in that fixed order and the first failing one fixes the reason; when
all pass the result is allowed with the stop/take levels computed from the
configured percentages. -/
theorem claim_C2_check_trade_allowed (rm : RiskManager) (symbol side : String)
    (size price : ℚ) :
    (((rm.daily_trades : ℤ) ≥ rm.max_trades_per_day ∨
        rm.daily_loss ≥ rm.max_daily_loss ∨
        size * price > rm.max_position_size) →
      (check_trade_allowed rm symbol side size price).1.allowed = false) ∧
    ((rm.daily_trades : ℤ) ≥ rm.max_trades_per_day →
      (check_trade_allowed rm symbol side size price).1.reason =
        some "Maximum daily trades reached") ∧
    ((rm.daily_trades : ℤ) < rm.max_trades_per_day →
      rm.daily_loss ≥ rm.max_daily_loss →
      (check_trade_allowed rm symbol side size price).1.reason =
        some "Maximum daily loss reached") ∧
    ((rm.daily_trades : ℤ) < rm.max_trades_per_day →
      rm.daily_loss < rm.max_daily_loss →
      size * price > rm.max_position_size →
      (check_trade_allowed rm symbol side size price).1.reason =
        some "Position size exceeds maximum allowed") ∧
    ((rm.daily_trades : ℤ) < rm.max_trades_per_day →
      rm.daily_loss < rm.max_daily_loss →
      size * price ≤ rm.max_position_size →
      (check_trade_allowed rm symbol side size price).1 =
        ⟨true, none, some (price * (1 - rm.stop_loss_pct / 100)),
          some (price * (1 + rm.take_profit_pct / 100))⟩) := by
  constructor
  · intro h
    unfold check_trade_allowed
    split_ifs with h1 h2 h3
    · rfl
    · rfl
    · rfl
    · exfalso
      rcases h with h | h | h
      · omega
      · linarith
      · linarith
  · unfold check_trade_allowed
    split_ifs with h1 h2 h3 <;>
      refine ⟨?_, ?_, ?_, ?_⟩ <;> intros <;>
        first
          | rfl
          | (exfalso; omega)
          | (exfalso; linarith)

/-- Witness for C2 at the test configuration: a fresh state allows a
0.01-unit trade at price 50000 with stop 49000 and take 52000. -/
theorem claim_C2_witness :
    (check_trade_allowed testRiskManager "BTC-USDT" "buy" (1 / 100) 50000).1 =
      ⟨true, none, some 49000, some 52000⟩ := by
  have h :=
    (claim_C2_check_trade_allowed testRiskManager "BTC-USDT" "buy" (1 / 100)
      50000).2.2.2.2 (by norm_num [testRiskManager]) (by norm_num [testRiskManager])
      (by norm_num [testRiskManager])
  rw [h]
  norm_num [testRiskManager]

/-- C10: `check_trade_allowed` is a pure query — it returns the state it was
given (hence every field is unchanged), and running it again from the state
it produced gives the same answer. -/
theorem claim_C10_check_trade_allowed_pure (rm : RiskManager)
    (symbol side : String) (size price : ℚ) :
    (check_trade_allowed rm symbol side size price).2 = rm ∧
    check_trade_allowed (check_trade_allowed rm symbol side size price).2
        symbol side size price =
      check_trade_allowed rm symbol side size price := by
  have h : (check_trade_allowed rm symbol side size price).2 = rm := by
    unfold check_trade_allowed
    split_ifs <;> rfl
  exact ⟨h, by rw [h]⟩

/-- C4 (amended): `calculate_position_size` returns the min formula whenever
the first divisor `price * stop_loss_pct/100` is nonzero; it returns 0 when
that divisor is zero (the caught ZeroDivisionError, covering a zero price);
but for a *negative* price with positive risk parameters it returns a
negative size, not 0. -/
theorem claim_C4_amended_calculate_position_size (rm : RiskManager)
    (balance price risk : ℚ) :
    (price * (rm.stop_loss_pct / 100) = 0 →
      calculate_position_size rm balance price risk = 0) ∧
    (price * (rm.stop_loss_pct / 100) ≠ 0 →
      calculate_position_size rm balance price risk =
        min (balance * risk / (price * (rm.stop_loss_pct / 100)))
            (rm.max_position_size / price)) ∧
    (price < 0 → 0 < rm.stop_loss_pct → 0 < balance * risk →
      calculate_position_size rm balance price risk < 0) := by
  refine ⟨fun h => by simp [calculate_position_size, h],
          fun h => by simp [calculate_position_size, h], ?_⟩
  intro hp hs hb
  have hden : price * (rm.stop_loss_pct / 100) < 0 :=
    mul_neg_of_neg_of_pos hp (by positivity)
  have h1 : balance * risk / (price * (rm.stop_loss_pct / 100)) < 0 :=
    div_neg_of_pos_of_neg hb hden
  have := calc
    calculate_position_size rm balance price risk =
        min (balance * risk / (price * (rm.stop_loss_pct / 100)))
            (rm.max_position_size / price) := by
          simp [calculate_position_size, ne_of_lt hden]
    _ ≤ balance * risk / (price * (rm.stop_loss_pct / 100)) := min_le_left _ _
  linarith

/-- Counterexample to C4 as stated: with the test configuration, the
negative price -50000 does not yield 0 — the code returns the (negative)
min formula, -0.2. -/
theorem claim_C4_counterexample :
    (-50000 : ℚ) < 0 ∧
    calculate_position_size testRiskManager 10000 (-50000) (1 / 50) = -(1 / 5) := by
  constructor
  · norm_num
  · norm_num [calculate_position_size, testRiskManager]

/-- Witness for C4 (amended) at the concrete example of the spec: balance 10000,
price 50000, 2% stop loss, 1000 max position size gives size 0.02. -/
theorem claim_C4_witness :
    calculate_position_size testRiskManager 10000 50000 (1 / 50) = 1 / 50 := by
  have h :=
    (claim_C4_amended_calculate_position_size testRiskManager 10000 50000
      (1 / 50)).2.1 (by norm_num [testRiskManager])
  rw [h]
  norm_num [testRiskManager]

/-- In any list of strings, the BUY votes and the SELL votes together never
exceed the list length (each element is at most one of the two). -/
lemma count_buy_add_count_sell_le_length (l : List String) :
    l.count "BUY" + l.count "SELL" ≤ l.length := by
  induction l with
  | nil => simp
  | cons x t ih =>
    by_cases hb : x = "BUY"
    · subst hb
      simp [List.count_cons]
      omega
    · by_cases hs : x = "SELL"
      · subst hs
        simp [List.count_cons]
        omega
      · simp [List.count_cons, hb, hs]
        omega

/-- C3: `generate_signal` returns BUY exactly when the BUY votes among the
present sub-signals are a strict majority, SELL exactly when the SELL votes
are, and HOLD otherwise — also when no sub-signal is present (the empty
list makes both majority conditions false) and for a falsy analysis.
Absent sub-signals are excluded by `availableSignals`, not counted as HOLD
votes. -/
theorem claim_C3_majority_vote (a : AnalysisSignals) :
    (generate_signal (some a) = "BUY" ↔
      ((availableSignals a).count "BUY" : ℚ) >
        ((availableSignals a).length : ℚ) / 2) ∧
    (generate_signal (some a) = "SELL" ↔
      ((availableSignals a).count "SELL" : ℚ) >
        ((availableSignals a).length : ℚ) / 2) ∧
    (generate_signal (some a) = "HOLD" ↔
      (¬ ((availableSignals a).count "BUY" : ℚ) >
          ((availableSignals a).length : ℚ) / 2 ∧
       ¬ ((availableSignals a).count "SELL" : ℚ) >
          ((availableSignals a).length : ℚ) / 2)) ∧
    generate_signal none = "HOLD" := by
  simp only [generate_signal]
  by_cases h0 : availableSignals a = []
  · simp [h0]
  · rw [if_neg h0]
    by_cases hb : ((availableSignals a).count "BUY" : ℚ) >
        ((availableSignals a).length : ℚ) / 2
    · rw [if_pos hb]
      have hsum := count_buy_add_count_sell_le_length (availableSignals a)
      have hsum' : ((availableSignals a).count "BUY" : ℚ) +
          ((availableSignals a).count "SELL" : ℚ) ≤
          ((availableSignals a).length : ℚ) := by exact_mod_cast hsum
      have hs : ¬ ((availableSignals a).count "SELL" : ℚ) >
          ((availableSignals a).length : ℚ) / 2 := by
        intro hs
        linarith
      simp [hb, hs]
    · rw [if_neg hb]
      by_cases hs : ((availableSignals a).count "SELL" : ℚ) >
          ((availableSignals a).length : ℚ) / 2
      · rw [if_pos hs]
        simp [hb, hs]
      · rw [if_neg hs]
        simp [hb, hs]

/-- Witness for C3 at the two vote profiles of the spec: two BUYs out of four
present signals give HOLD, three BUYs out of four give BUY. -/
theorem claim_C3_witness :
    generate_signal (some ⟨some "BUY", some "BUY", some "SELL", some "HOLD"⟩) =
      "HOLD" ∧
    generate_signal (some ⟨some "BUY", some "BUY", some "BUY", some "SELL"⟩) =
      "BUY" := by
  constructor
  · exact (claim_C3_majority_vote _).2.2.1.mpr
      (by constructor <;>
        norm_num [availableSignals, List.filterMap_cons, List.count_cons,
          show ("HOLD" : String) ≠ "BUY" by decide,
          show ("SELL" : String) ≠ "BUY" by decide,
          show ("HOLD" : String) ≠ "SELL" by decide,
          show ("BUY" : String) ≠ "SELL" by decide])
  · exact (claim_C3_majority_vote _).1.mpr
      (by norm_num [availableSignals, List.filterMap_cons, List.count_cons,
        show ("SELL" : String) ≠ "BUY" by decide])

/-! ### Step lemmas for the execution layer -/

/-- A buy attempt whose adapter call fails changes nothing and returns
nothing. -/
lemma place_market_buy_adapter_fail (es : EngineState) (symbol : String)
    (size price : ℚ) :
    place_market_buy es symbol size price none = (none, es) := by
  simp only [place_market_buy]
  split_ifs <;> rfl

/-- A buy rejected by the risk check changes nothing regardless of the
adapter. -/
lemma place_market_buy_not_allowed (es : EngineState) (symbol : String)
    (size price : ℚ) (adapter : Option String)
    (h : (check_trade_allowed es.rm symbol "buy" size price).1.allowed = false) :
    place_market_buy es symbol size price adapter = (none, es) := by
  unfold place_market_buy
  rw [if_pos h]

/-- A risk-allowed buy whose adapter call fills applies the buy-side risk
update with the quantized size and records the open order. -/
lemma place_market_buy_filled (es : EngineState) (symbol : String)
    (size price : ℚ) (oid : String)
    (h : (check_trade_allowed es.rm symbol "buy" size price).1.allowed = true) :
    place_market_buy es symbol size price (some oid) =
      (some oid,
       { es with
         rm := update_position es.rm symbol "buy" (format_size size) price,
         open_orders := fun o =>
           if o = oid then some ⟨symbol, "buy", format_size size, price⟩
           else es.open_orders o }) := by
  unfold place_market_buy
  rw [if_neg (by simp [h])]

/-- A sell attempt whose adapter call fails changes nothing and returns
nothing. -/
lemma place_market_sell_adapter_fail (es : EngineState) (symbol : String)
    (size price : ℚ) :
    place_market_sell es symbol size price none = (none, es) := rfl

/-- A sell whose adapter call fills books the daily loss for a negative pnl
against the entry price of the risk record and applies the sell-side risk
update. -/
lemma place_market_sell_filled (es : EngineState) (symbol : String)
    (size price : ℚ) (oid : String) :
    place_market_sell es symbol size price (some oid) =
      (some oid,
       { es with
         rm :=
           update_position
             (match es.rm.open_positions symbol with
              | some rp =>
                if (price - rp.entry_price) * format_size size < 0 then
                  update_daily_loss es.rm |(price - rp.entry_price) * format_size size|
                else es.rm
              | none => es.rm)
             symbol "sell" (format_size size) price }) := rfl

/-- Opening with a failed adapter call changes nothing. -/
lemma open_position_adapter_fail (es : EngineState) (symbol : String)
    (size price : ℚ) :
    open_position es symbol size price none = (none, es) := by
  unfold open_position
  rw [place_market_buy_adapter_fail]

/-- A risk-allowed, filled open records the position under its symbol with
the raw (unquantized) size and entry price. -/
lemma open_position_filled (es : EngineState) (symbol : String)
    (size price : ℚ) (oid : String)
    (h : (check_trade_allowed es.rm symbol "buy" size price).1.allowed = true) :
    open_position es symbol size price (some oid) =
      (some oid,
       { es with
         rm := update_position es.rm symbol "buy" (format_size size) price,
         open_orders := fun o =>
           if o = oid then some ⟨symbol, "buy", format_size size, price⟩
           else es.open_orders o,
         positions := fun s =>
           if s = symbol then some ⟨size, price, oid⟩ else es.positions s }) := by
  unfold open_position
  rw [place_market_buy_filled es symbol size price oid h]

/-- Closing with a failed adapter call changes nothing. -/
lemma close_position_adapter_fail (es : EngineState) (symbol : String)
    (price : ℚ) :
    close_position es symbol price none = (none, es) := by
  unfold close_position
  cases h : es.positions symbol with
  | none => rfl
  | some position =>
    simp [place_market_sell_adapter_fail]

/-- Closing a recorded position with a filled adapter call applies the sell
risk updates and deletes the position. -/
lemma close_position_filled (es : EngineState) (symbol : String)
    (price : ℚ) (oid : String) (position : PMPos)
    (hpos : es.positions symbol = some position) :
    close_position es symbol price (some oid) =
      (some oid,
       { es with
         rm :=
           update_position
             (match es.rm.open_positions symbol with
              | some rp =>
                if (price - rp.entry_price) * format_size position.size < 0 then
                  update_daily_loss es.rm
                    |(price - rp.entry_price) * format_size position.size|
                else es.rm
              | none => es.rm)
             symbol "sell" (format_size position.size) price,
         positions := fun s => if s = symbol then none else es.positions s }) := by
  unfold close_position
  rw [hpos]
  simp only [place_market_sell_filled]

/-- C1: atomicity on adapter failure — when the external order submission
reports failure (no order), `place_market_buy`, `place_market_sell`,
`open_position` (executeBuy) and `close_position` (executeSell) all return
no order and leave the whole state, in particular the RiskGate counters and
per-symbol records and the PositionLedger map, exactly as before the
attempt; a failed sell therefore leaves the position OPEN with its
entry_price and the stop/take values of the risk record intact. -/
theorem claim_C1_adapter_failure_atomicity (es : EngineState) (symbol : String)
    (size price : ℚ) :
    place_market_buy es symbol size price none = (none, es) ∧
    place_market_sell es symbol size price none = (none, es) ∧
    open_position es symbol size price none = (none, es) ∧
    close_position es symbol price none = (none, es) :=
  ⟨place_market_buy_adapter_fail es symbol size price,
   place_market_sell_adapter_fail es symbol size price,
   open_position_adapter_fail es symbol size price,
   close_position_adapter_fail es symbol price⟩

/-- C5 (amended): `open_position` performs no already-OPEN check.  When the
buy is rejected or the adapter fails it returns none and the existing
position survives unchanged; but when the order fills it returns the order
id and *overwrites* the existing record with the new size, entry price and
order id.  At most one record per symbol still holds, the ledger being a
map keyed by symbol; the engine avoids double opens only because
`process_signal` opens solely when no position is recorded. -/
theorem claim_C5_amended_open_overwrites (es : EngineState) (symbol : String)
    (size price : ℚ) (adapter : Option String) (pos : PMPos)
    (hpos : es.positions symbol = some pos) :
    ((open_position es symbol size price adapter).1 = none →
      (open_position es symbol size price adapter).2.positions symbol = some pos) ∧
    (∀ oid, (open_position es symbol size price adapter).1 = some oid →
      (open_position es symbol size price adapter).2.positions symbol =
        some ⟨size, price, oid⟩) := by
  by_cases hall : (check_trade_allowed es.rm symbol "buy" size price).1.allowed = true
  · cases adapter with
    | none =>
      rw [open_position_adapter_fail]
      exact ⟨fun _ => hpos, fun oid h => by simp at h⟩
    | some o =>
      rw [open_position_filled es symbol size price o hall]
      refine ⟨fun h => by simp at h, fun oid h => ?_⟩
      simp only [Option.some.injEq] at h
      subst h
      simp
  · have hf : (check_trade_allowed es.rm symbol "buy" size price).1.allowed = false :=
      by simpa using hall
    unfold open_position
    rw [place_market_buy_not_allowed es symbol size price adapter hf]
    exact ⟨fun _ => hpos, fun oid h => by simp at h⟩

/-- Counterexample to C5 as stated: with a position already OPEN for
BTC-USDT at entry 50000, a second `open_position` at price 51000 whose
order fills returns the order (not none) and replaces the stored entry
price. -/
theorem claim_C5_counterexample :
    (open_position
        { testEngineState with
          positions := fun s =>
            if s = "BTC-USDT" then some ⟨1 / 100, 50000, "o1"⟩ else none }
        "BTC-USDT" (1 / 100) 51000 (some "o2")).1 = some "o2" ∧
    (open_position
        { testEngineState with
          positions := fun s =>
            if s = "BTC-USDT" then some ⟨1 / 100, 50000, "o1"⟩ else none }
        "BTC-USDT" (1 / 100) 51000 (some "o2")).2.positions "BTC-USDT" =
      some ⟨1 / 100, 51000, "o2"⟩ := by
  have hall : (check_trade_allowed
      ({ testEngineState with
         positions := fun s =>
           if s = "BTC-USDT" then some ⟨1 / 100, 50000, "o1"⟩ else none } :
        EngineState).rm "BTC-USDT" "buy" (1 / 100) 51000).1.allowed = true := by
    norm_num [check_trade_allowed, testEngineState, testRiskManager]
  rw [open_position_filled _ _ _ _ _ hall]
  simp

/-- Witness for C5 (amended), at the state of the counterexample: applying the
overwrite branch with the filled order o2. -/
theorem claim_C5_witness :
    (open_position
        { testEngineState with
          positions := fun s =>
            if s = "BTC-USDT" then some ⟨1 / 100, 50000, "o1"⟩ else none }
        "BTC-USDT" (1 / 50) 51000 none).1 = none ∧
    (open_position
        { testEngineState with
          positions := fun s =>
            if s = "BTC-USDT" then some ⟨1 / 100, 50000, "o1"⟩ else none }
        "BTC-USDT" (1 / 50) 51000 none).2.positions "BTC-USDT" =
      some ⟨1 / 100, 50000, "o1"⟩ := by
  refine ⟨?_, ?_⟩
  · rw [open_position_adapter_fail]
  · exact (claim_C5_amended_open_overwrites _ "BTC-USDT" (1 / 50) 51000 none
      ⟨1 / 100, 50000, "o1"⟩ (by simp)).1 (by rw [open_position_adapter_fail])

/-- C6 (amended): the quantization itself does round down — for a
nonnegative size, `format_size` is the largest multiple of the 1e-6
increment not exceeding the input, never rounding up.  But a quantized size
of zero is NOT skipped: whenever the risk check allows the trade, the order
is submitted regardless of the quantized size (the
`if not formatted_size` guard only catches a formatting exception, since
the string "0.000000" is truthy). -/
theorem claim_C6_amended_quantize_rounds_down (size : ℚ) (h : 0 ≤ size) :
    ((∃ k : ℤ, format_size size = (k : ℚ) * (1 / 1000000)) ∧
     format_size size ≤ size ∧
     (∀ m : ℤ, (m : ℚ) * (1 / 1000000) ≤ size →
       (m : ℚ) * (1 / 1000000) ≤ format_size size)) ∧
    (∀ (es : EngineState) (symbol : String) (price : ℚ)
        (adapter : Option String),
      (check_trade_allowed es.rm symbol "buy" size price).1.allowed = true →
      (place_market_buy es symbol size price adapter).1 = adapter) := by
  have hinc : (0 : ℚ) < 1 / 1000000 := by norm_num
  have hq : format_size size = (⌊size / (1 / 1000000)⌋ : ℚ) * (1 / 1000000) := by
    unfold format_size quantize
    rw [if_pos h]
  refine ⟨⟨⟨⌊size / (1 / 1000000)⌋, hq⟩, ?_, ?_⟩, ?_⟩
  · rw [hq]
    calc (⌊size / (1 / 1000000)⌋ : ℚ) * (1 / 1000000)
        ≤ size / (1 / 1000000) * (1 / 1000000) :=
          mul_le_mul_of_nonneg_right (Int.floor_le _) (le_of_lt hinc)
      _ = size := div_mul_cancel₀ size (ne_of_gt hinc)
  · intro m hm
    rw [hq]
    have h1 : (m : ℚ) ≤ size / (1 / 1000000) := (le_div_iff₀ hinc).mpr hm
    have h2 : m ≤ ⌊size / (1 / 1000000)⌋ := Int.le_floor.mpr h1
    exact mul_le_mul_of_nonneg_right (by exact_mod_cast h2) (le_of_lt hinc)
  · intro es symbol price adapter hall
    cases adapter with
    | none => rw [place_market_buy_adapter_fail]
    | some oid => rw [place_market_buy_filled es symbol size price oid hall]

/-- Counterexample to C6 as stated: the size 0.0000005 quantizes to zero,
yet the buy is not skipped — with a fresh test state the order is submitted
and fills as o9. -/
theorem claim_C6_counterexample :
    format_size (1 / 2000000) = 0 ∧
    (place_market_buy testEngineState "BTC-USDT" (1 / 2000000) 50000
        (some "o9")).1 = some "o9" := by
  constructor
  · unfold format_size quantize
    rw [if_pos (by norm_num)]
    norm_num
  · have hall : (check_trade_allowed testEngineState.rm "BTC-USDT" "buy"
        (1 / 2000000) 50000).1.allowed = true := by
      norm_num [check_trade_allowed, testEngineState, testRiskManager]
    rw [place_market_buy_filled _ _ _ _ _ hall]

/-- Witness for C6 (amended): quantizing 0.01 stays within 0.01, and a
zero-quantizing size still reaches the adapter and returns its order. -/
theorem claim_C6_witness :
    format_size (1 / 100) ≤ 1 / 100 ∧
    (place_market_buy testEngineState "ETH-USDT" (1 / 2000000) 2000
        (some "o3")).1 = some "o3" := by
  constructor
  · exact (claim_C6_amended_quantize_rounds_down (1 / 100) (by norm_num)).1.2.1
  · exact (claim_C6_amended_quantize_rounds_down (1 / 2000000) (by norm_num)).2
      testEngineState "ETH-USDT" 2000 (some "o3")
      (by norm_num [check_trade_allowed, testEngineState, testRiskManager])

/-- C7: each close-record update of the performance metrics increments
total_trades, accumulates total_pnl, then updates the win/loss counters and
extrema by the sign of the pnl; afterwards average_win is
total_pnl/winning_trades whenever winning_trades > 0, average_loss is
|total_pnl|/losing_trades whenever losing_trades > 0, win_rate is
winning_trades/total_trades*100, and risk_reward_ratio is
|average_win/average_loss| when average_loss is nonzero and otherwise keeps
its prior value; no division by zero occurs because every division sits
behind its positivity/nonzero guard. -/
theorem claim_C7_performance_update (m : PerformanceMetrics) (pnl : ℚ) :
    (update_performance_metrics m pnl).total_trades = m.total_trades + 1 ∧
    (update_performance_metrics m pnl).total_pnl = m.total_pnl + pnl ∧
    (0 < pnl →
      (update_performance_metrics m pnl).winning_trades = m.winning_trades + 1 ∧
      (update_performance_metrics m pnl).losing_trades = m.losing_trades ∧
      (update_performance_metrics m pnl).largest_win = max m.largest_win pnl ∧
      (update_performance_metrics m pnl).largest_loss = m.largest_loss) ∧
    (¬ 0 < pnl →
      (update_performance_metrics m pnl).losing_trades = m.losing_trades + 1 ∧
      (update_performance_metrics m pnl).winning_trades = m.winning_trades ∧
      (update_performance_metrics m pnl).largest_loss = min m.largest_loss pnl ∧
      (update_performance_metrics m pnl).largest_win = m.largest_win) ∧
    (0 < (update_performance_metrics m pnl).winning_trades →
      (update_performance_metrics m pnl).average_win =
        (update_performance_metrics m pnl).total_pnl /
          ((update_performance_metrics m pnl).winning_trades : ℚ)) ∧
    (0 < (update_performance_metrics m pnl).losing_trades →
      (update_performance_metrics m pnl).average_loss =
        |(update_performance_metrics m pnl).total_pnl| /
          ((update_performance_metrics m pnl).losing_trades : ℚ)) ∧
    (update_performance_metrics m pnl).win_rate =
      ((update_performance_metrics m pnl).winning_trades : ℚ) /
        ((update_performance_metrics m pnl).total_trades : ℚ) * 100 ∧
    ((update_performance_metrics m pnl).average_loss ≠ 0 →
      (update_performance_metrics m pnl).risk_reward_ratio =
        |(update_performance_metrics m pnl).average_win /
          (update_performance_metrics m pnl).average_loss|) ∧
    ((update_performance_metrics m pnl).average_loss = 0 →
      (update_performance_metrics m pnl).risk_reward_ratio =
        m.risk_reward_ratio) := by
  simp only [update_performance_metrics]
  split_ifs <;> simp_all

/-- Witness for C7: the first recorded close with pnl 10 on zeroed metrics
yields one total trade and one winning trade. -/
theorem claim_C7_witness :
    (update_performance_metrics ⟨0, 0, 0, 0, 0, 0, 0, 0, 0, 0⟩ 10).total_trades
        = 1 ∧
    (update_performance_metrics ⟨0, 0, 0, 0, 0, 0, 0, 0, 0, 0⟩ 10).winning_trades
        = 1 := by
  have h := claim_C7_performance_update ⟨0, 0, 0, 0, 0, 0, 0, 0, 0, 0⟩ 10
  exact ⟨h.1, (h.2.2.1 (by norm_num)).1⟩

/-- Lemma: `update_position` never changes the configured percentages. -/
lemma update_position_config (rm : RiskManager) (symbol side : String)
    (size entry : ℚ) :
    (update_position rm symbol side size entry).stop_loss_pct = rm.stop_loss_pct ∧
    (update_position rm symbol side size entry).take_profit_pct =
      rm.take_profit_pct := by
  unfold update_position
  split_ifs <;> exact ⟨rfl, rfl⟩

/-- One `update_position` call preserves well-formedness of every stored
risk record, provided a buy call carries a positive entry price. -/
lemma update_position_wf (rm : RiskManager) (symbol side : String)
    (size entry : ℚ) (slp tpp : ℚ)
    (hcs : rm.stop_loss_pct = slp) (hct : rm.take_profit_pct = tpp)
    (hs1 : 0 < slp) ( _hs2 : slp < 100) (ht : 0 < tpp)
    (hbuy : side = "buy" → 0 < entry)
    (hinv : ∀ s r, rm.open_positions s = some r → riskRecordWellFormed slp tpp r) :
    ∀ s r, (update_position rm symbol side size entry).open_positions s = some r →
      riskRecordWellFormed slp tpp r := by
  intro s r hr
  unfold update_position at hr
  split_ifs at hr with h1 h2
  · simp only at hr
    by_cases hss : s = symbol
    · rw [if_pos hss] at hr
      rw [Option.some.injEq] at hr
      subst hr
      have hentry : 0 < entry := hbuy h1
      have hslp : 0 < slp / 100 := by positivity
      have htpp : 0 < tpp / 100 := by positivity
      refine ⟨by rw [hcs], by rw [hct], ?_, ?_⟩
      · show entry * (1 - rm.stop_loss_pct / 100) < entry
        rw [hcs]
        nlinarith
      · show entry < entry * (1 + rm.take_profit_pct / 100)
        rw [hct]
        nlinarith
    · rw [if_neg hss] at hr
      exact hinv s r hr
  · simp only at hr
    by_cases hss : s = symbol
    · rw [if_pos hss] at hr
      exact absurd hr (by simp)
    · rw [if_neg hss] at hr
      exact hinv s r hr
  · exact hinv s r hr

/-- C8: from an empty record map, after any sequence of `update_position`
calls whose buys carry positive entry prices, and with sane configured
percentages (0 < stop_loss_pct < 100, 0 < take_profit_pct), every record
in the map has stop_loss = entry_price*(1 - stop_loss_pct/100) and
take_profit = entry_price*(1 + take_profit_pct/100), and satisfies
stop_loss < entry_price < take_profit. -/
theorem claim_C8_stop_entry_take_invariant (rm0 : RiskManager)
    (h0 : ∀ s, rm0.open_positions s = none)
    (hs1 : 0 < rm0.stop_loss_pct) (hs2 : rm0.stop_loss_pct < 100)
    (ht : 0 < rm0.take_profit_pct)
    (calls : List RiskCall)
    (hc : ∀ c ∈ calls, c.side = "buy" → 0 < c.entry_price) :
    ∀ s r, (apply_update_positions rm0 calls).open_positions s = some r →
      r.stop_loss = r.entry_price * (1 - rm0.stop_loss_pct / 100) ∧
      r.take_profit = r.entry_price * (1 + rm0.take_profit_pct / 100) ∧
      r.stop_loss < r.entry_price ∧ r.entry_price < r.take_profit := by
  suffices h : ∀ (calls : List RiskCall) (rm : RiskManager),
      rm.stop_loss_pct = rm0.stop_loss_pct →
      rm.take_profit_pct = rm0.take_profit_pct →
      (∀ c ∈ calls, c.side = "buy" → 0 < c.entry_price) →
      (∀ s r, rm.open_positions s = some r →
        riskRecordWellFormed rm0.stop_loss_pct rm0.take_profit_pct r) →
      ∀ s r, (apply_update_positions rm calls).open_positions s = some r →
        riskRecordWellFormed rm0.stop_loss_pct rm0.take_profit_pct r by
    intro s r hr
    exact h calls rm0 rfl rfl hc (fun s r hr => absurd hr (by simp [h0 s])) s r hr
  intro calls
  induction calls with
  | nil =>
    intro rm _ _ _ hinv s r hr
    exact hinv s r hr
  | cons c t ih =>
    intro rm hcs hct hc hinv s r hr
    have hcfg := update_position_config rm c.symbol c.side c.size c.entry_price
    refine ih (update_position rm c.symbol c.side c.size c.entry_price)
      (hcfg.1.trans hcs) (hcfg.2.trans hct)
      (fun d hd => hc d (List.mem_cons_of_mem c hd)) ?_ s r hr
    exact update_position_wf rm c.symbol c.side c.size c.entry_price
      rm0.stop_loss_pct rm0.take_profit_pct hcs hct hs1 hs2 ht
      (hc c (List.mem_cons_self c t)) hinv

/-- Witness for C8: a single buy of 0.01 BTC at 50000 under the test
configuration stores the record (stop 49000, take 52000), which brackets
the entry price. -/
theorem claim_C8_witness :
    (apply_update_positions testRiskManager
        [⟨"BTC-USDT", "buy", 1 / 100, 50000⟩]).open_positions "BTC-USDT" =
      some ⟨1 / 100, 50000, 49000, 52000⟩ ∧
    (49000 : ℚ) < 50000 ∧ (50000 : ℚ) < 52000 := by
  have hlook : (apply_update_positions testRiskManager
      [⟨"BTC-USDT", "buy", 1 / 100, 50000⟩]).open_positions "BTC-USDT" =
      some ⟨1 / 100, 50000, 49000, 52000⟩ := by
    norm_num [apply_update_positions, update_position, testRiskManager]
  have h := claim_C8_stop_entry_take_invariant testRiskManager
    (fun s => rfl) (by norm_num [testRiskManager]) (by norm_num [testRiskManager])
    (by norm_num [testRiskManager])
    [⟨"BTC-USDT", "buy", 1 / 100, 50000⟩]
    (by
      intro c hcm hside
      rw [List.mem_singleton] at hcm
      subst hcm
      norm_num)
    "BTC-USDT" ⟨1 / 100, 50000, 49000, 52000⟩ hlook
  exact ⟨hlook, h.2.2.1, h.2.2.2⟩

/-- C9 (code evidence): the claimed buy/sell round trip is unreachable in
the program.  Because `TradingEngine.get_account_balance` does not exist,
the BUY branch of `process_signal` raises AttributeError (caught) before
opening anything, so starting from any state with no position for the
symbol, a BUY cycle followed by a SELL cycle — filled adapter orders or
not — returns the state exactly as it was: the ledger never contains the
symbol, no OPEN or CLOSE record is appended (so no record with pnl 10
exists), and winning_trades does not increment. -/
theorem claim_C9_round_trip_unreachable (es : EngineState) (symbol : String)
    (price1 price2 : ℚ) (adapter1 adapter2 : Option String)
    (hpos : es.positions symbol = none) :
    process_signal (process_signal es symbol "BUY" price1 adapter1)
        symbol "SELL" price2 adapter2 = es ∧
    (process_signal (process_signal es symbol "BUY" price1 adapter1)
        symbol "SELL" price2 adapter2).trades_history = es.trades_history ∧
    (process_signal (process_signal es symbol "BUY" price1 adapter1)
        symbol "SELL" price2 adapter2).performance_metrics.winning_trades
      = es.performance_metrics.winning_trades := by
  have h1 : process_signal es symbol "BUY" price1 adapter1 = es := by
    unfold process_signal
    rw [hpos]
  have h2 : process_signal es symbol "SELL" price2 adapter2 = es := by
    unfold process_signal
    rw [hpos]
  rw [h1, h2]
  exact ⟨rfl, rfl, rfl⟩

/-- Witness for C9 at the concrete spec scenario (BTC-USDT, buy at 50000,
sell at 51000, both orders filled): the fresh test state comes back
unchanged, with an empty trade history and zero winning trades. -/
theorem claim_C9_witness :
    process_signal (process_signal testEngineState "BTC-USDT" "BUY" 50000
        (some "o1")) "BTC-USDT" "SELL" 51000 (some "o2") = testEngineState ∧
    (process_signal (process_signal testEngineState "BTC-USDT" "BUY" 50000
        (some "o1")) "BTC-USDT" "SELL" 51000 (some "o2")).trades_history
      = [] ∧
    (process_signal (process_signal testEngineState "BTC-USDT" "BUY" 50000
        (some "o1")) "BTC-USDT" "SELL" 51000
        (some "o2")).performance_metrics.winning_trades = 0 := by
  have h := claim_C9_round_trip_unreachable testEngineState "BTC-USDT" 50000
    51000 (some "o1") (some "o2") rfl
  exact ⟨h.1, h.2.1, h.2.2⟩

end Kucoin
